import Mathlib

/-
Verification of the keyspace reconciler in library/cassandra_keyspace.py.

The module's logic is embedded shallowly:
  * a metadata row (the module installs the dict row factory) is an ordered
    association list of column/value strings;
  * the cluster schema metadata is an association list from keyspace name to
    its row in system_schema.keyspaces;
  * a session records every statement handed to session.execute, carries the
    cluster metadata it acts on, and consults a failure oracle telling which
    execute call (by position) raises, and with which message.
-/

deriving instance DecidableEq for Except

namespace Cassandra

/-- A metadata row as produced by the dict row factory: a Python dict,
modelled as an ordered association list of column name / value pairs. -/
abbrev Row := List (String × String)

/-- Cluster schema metadata: association list from keyspace name to its row
in system_schema.keyspaces. -/
abbrev ClusterState := List (String × Row)

/-- One statement handed to session.execute: the query text together with the
list of bound parameters (empty when execute is called with the text alone). -/
structure Stmt where
  text : String
  params : List String
deriving DecidableEq

/-- Python truthiness of the value get_keyspace returns: None is falsy, a dict
is truthy iff nonempty.  This is bool(existing_keyspace) at lines 92 and 108. -/
def pyTruthy : Option Row → Bool
  | none => false
  | some r => !r.isEmpty

/-- Rendering of a Python bool by the %s format specifier. -/
def pyBool (b : Bool) : String := if b then "True" else "False"

/-- GET_KEYSPACE template, line 86 of the source. -/
def GET_KEYSPACE : String :=
  "SELECT * FROM system_schema.keyspaces WHERE keyspace_name = %s limit 1;"

/-- DROP_KEYSPACE template, line 87 of the source. -/
def DROP_KEYSPACE : String := "DROP KEYSPACE %s"

/-- The metadata query as executed at lines 94 and 101: template plus the
keyspace name as single bound parameter. -/
def getStmt (name : String) : Stmt := ⟨GET_KEYSPACE, [name]⟩

/-- The drop as executed at line 94: template plus the keyspace name as single
bound parameter. -/
def dropStmt (name : String) : Stmt := ⟨DROP_KEYSPACE, [name]⟩

/-- CREATE text of the SimpleStrategy branch: the template of line 115 with
the percent interpolation of line 116 applied (name, topology,
replication_factor, durable_writes). -/
def simpleCreateText (name topology : String) (rf : Nat) (dw : Bool) : String :=
  "CREATE KEYSPACE " ++ name ++ " WITH REPLICATION = \x7b \x27class\x27 : \x27" ++ topology ++
    "\x27, \x27replication_factor\x27 : \x27" ++ toString rf ++
    "\x27 \x7d AND DURABLE_WRITES = " ++ pyBool dw ++ ";"

/-- CREATE text of the non-SimpleStrategy branch: the template of line 118 with
the percent interpolation of line 119 applied (name, topology, datacenter,
replication_factor, durable_writes). -/
def networkCreateText (name topology datacenter : String) (rf : Nat) (dw : Bool) : String :=
  "CREATE KEYSPACE " ++ name ++ " WITH REPLICATION = \x7b \x27class\x27 : \x27" ++ topology ++
    "\x27, \x27" ++ datacenter ++ "\x27 : \x27" ++ toString rf ++
    "\x27 \x7d AND DURABLE_WRITES = " ++ pyBool dw ++ ";"

/-- The effect a statement has on the external cluster once the session applies
it.  Modelled from the spec: a keyspace is created by an explicit DDL
statement, destroyed by an explicit DDL statement, and existence is checked by
querying schema metadata. -/
inductive Action where
  | select (name : String)
  | createKs (name : String) (row : Row)
  | dropKs (name : String)

/-- Cluster metadata with every row of the named keyspace removed. -/
def eraseKey (name : String) (st : ClusterState) : ClusterState :=
  st.filter (fun p => p.1 != name)

/-- Cluster metadata after a successfully executed statement. -/
def applyAction (st : ClusterState) : Action → ClusterState
  | .select _ => st
  | .createKs name row => (name, row) :: st
  | .dropKs name => eraseKey name st

/-- Rows a successfully executed statement returns: the metadata query returns
the row of the named keyspace when there is one (LIMIT 1), DDL returns none. -/
def actionRows (st : ClusterState) : Action → List Row
  | .select name =>
    match st.lookup name with
    | some r => [r]
    | none => []
  | .createKs _ _ => []
  | .dropKs _ => []

/-- A session handle: current cluster metadata, a counter of execute calls made
so far, and an environment oracle telling which execute call (by position and
statement) raises, together with the error message. -/
structure Session where
  state : ClusterState
  tick : Nat
  failsOn : Nat → Stmt → Option String

/-- A session over the given cluster state whose execute calls never raise. -/
def Session.ok (st : ClusterState) : Session := ⟨st, 0, fun _ _ => none⟩

/-- One session.execute call: records the statement, consults the failure
oracle, and on success applies the statement's modelled effect and returns the
rows read from the pre-state. -/
def execute (sess : Session) (stmt : Stmt) (act : Action) :
    Except String (List Row) × Session × List Stmt :=
  match sess.failsOn sess.tick stmt with
  | some e => (.error e, { sess with tick := sess.tick + 1 }, [stmt])
  | none =>
    (.ok (actionRows sess.state act),
     { sess with state := applyAction sess.state act, tick := sess.tick + 1 },
     [stmt])

/-- Lines 100-103: run the metadata query and return the first row of the
result set, or None when it is empty (the for loop falls through). -/
def get_keyspace (sess : Session) (name : String) :
    Except String (Option Row) × Session × List Stmt :=
  match execute sess (getStmt name) (Action.select name) with
  | (.error e, s, tr) => (.error e, s, tr)
  | (.ok rows, s, tr) => (.ok rows.head?, s, tr)

/-- Lines 90-97: query the metadata; when the result is truthy, issue the DROP
unless running in check mode and return True; otherwise return False. -/
def keyspace_delete (sess : Session) (in_check_mode : Bool) (name : String) :
    Except String Bool × Session × List Stmt :=
  match get_keyspace sess name with
  | (.error e, s, tr) => (.error e, s, tr)
  | (.ok existing, s, tr) =>
    if pyTruthy existing then
      if !in_check_mode then
        match execute s (dropStmt name) (Action.dropKs name) with
        | (.error e, s2, tr2) => (.error e, s2, tr ++ tr2)
        | (.ok _, s2, tr2) => (.ok true, s2, tr ++ tr2)
      else (.ok true, s, tr)
    else (.ok false, s, tr)

/-- Modelled from the spec: the system_schema.keyspaces row installed by a
successful CREATE.  This is external cluster behaviour, not repository code;
its exact columns are immaterial to the module, beyond being a nonempty dict
for the keyspace. -/
def mkRow (name : String) (dw : Bool) : Row :=
  [("keyspace_name", name), ("durable_writes", pyBool dw)]

/-- Lines 114-119: the CREATE statement keyspace_create executes, already
interpolated by the percent operator; the SimpleStrategy branch is taken
exactly when topology equals that literal, every other topology taking the
network form. -/
def createStmtOf (name topology datacenter : String) (rf : Nat) (dw : Bool) : Stmt :=
  if topology == "SimpleStrategy" then ⟨simpleCreateText name topology rf dw, []⟩
  else ⟨networkCreateText name topology datacenter rf dw, []⟩

/-- Lines 120-121: re-query the metadata and return bool(new != existing). -/
def requeryAndCompare (s : Session) (tr : List Stmt) (existing : Option Row)
    (name : String) : Except String Bool × Session × List Stmt :=
  match get_keyspace s name with
  | (.error e, s2, tr2) => (.error e, s2, tr ++ tr2)
  | (.ok newKeyspace, s2, tr2) =>
    (.ok (decide (newKeyspace ≠ existing)), s2, tr ++ tr2)

/-- Lines 106-121: query the metadata; on a truthy result return False in
check mode; on a falsy result return True in check mode, otherwise issue the
topology-appropriate CREATE; in the remaining paths re-query and return
bool(new != existing). -/
def keyspace_create (sess : Session) (check_mode : Bool)
    (name topology datacenter : String) (replication_factor : Nat)
    (durable_writes : Bool) : Except String Bool × Session × List Stmt :=
  match get_keyspace sess name with
  | (.error e, s, tr) => (.error e, s, tr)
  | (.ok existing, s, tr) =>
    if pyTruthy existing then
      if check_mode then (.ok false, s, tr)
      else requeryAndCompare s tr existing name
    else if check_mode then (.ok true, s, tr)
    else
      match execute s
          (createStmtOf name topology datacenter replication_factor durable_writes)
          (Action.createKs name (mkRow name durable_writes)) with
      | (.error e, s2, tr2) => (.error e, s2, tr ++ tr2)
      | (.ok _, s2, tr2) => requeryAndCompare s2 (tr ++ tr2) existing name

/-- Result reported by the module runner: exit_json with the changed flag and
the name, or fail_json with a message. -/
inductive ModuleResult where
  | exitJson (changed : Bool) (name : String)
  | failJson (msg : String)
deriving DecidableEq

/-- Lines 201-211 of main: dispatch on the state parameter, call the matching
reconciler, and report either the changed flag or str(e) verbatim. -/
def mainDispatch (sess : Session) (check_mode : Bool)
    (state name topology datacenter : String) (replication_factor : Nat)
    (durable_writes : Bool) : ModuleResult :=
  if state == "present" then
    match keyspace_create sess check_mode name topology datacenter
        replication_factor durable_writes with
    | (.error e, _, _) => .failJson e
    | (.ok changed, _, _) => .exitJson changed name
  else if state == "absent" then
    match keyspace_delete sess check_mode name with
    | (.error e, _, _) => .failJson e
    | (.ok changed, _, _) => .exitJson changed name
  else .exitJson false name

/-- A statement is mutating when its text is a CREATE or a DROP; the metadata
query is a SELECT. -/
def isMutating (s : Stmt) : Bool :=
  "CREATE".data.isPrefixOf s.text.data || "DROP".data.isPrefixOf s.text.data

/-- The metadata row of an actually existing keyspace is never the empty dict:
rows of system_schema.keyspaces always carry columns. -/
def realisticRow : Option Row → Prop
  | none => True
  | some r => r ≠ []

/-
Helper lemmas shared by the claim theorems.
-/

/-- Bool-valued list prefixes extend along append. -/
theorem prefix_extend {l1 l2 : List Char} (l3 : List Char)
    (h : l1.isPrefixOf l2 = true) : l1.isPrefixOf (l2 ++ l3) = true :=
  List.isPrefixOf_iff_prefix.mpr
    ((List.isPrefixOf_iff_prefix.mp h).trans (List.prefix_append l2 l3))

/-- The interpolated SimpleStrategy CREATE text is classified as mutating. -/
theorem isMutating_simple (name topology : String) (rf : Nat) (dw : Bool) :
    isMutating ⟨simpleCreateText name topology rf dw, []⟩ = true := by
  have h : "CREATE".data.isPrefixOf (simpleCreateText name topology rf dw).data = true := by
    simp only [simpleCreateText, String.data_append, List.append_assoc]
    exact prefix_extend _ (by decide)
  simp [isMutating, h]

/-- The interpolated network-topology CREATE text is classified as mutating. -/
theorem isMutating_network (name topology datacenter : String) (rf : Nat) (dw : Bool) :
    isMutating ⟨networkCreateText name topology datacenter rf dw, []⟩ = true := by
  have h : "CREATE".data.isPrefixOf
      (networkCreateText name topology datacenter rf dw).data = true := by
    simp only [networkCreateText, String.data_append, List.append_assoc]
    exact prefix_extend _ (by decide)
  simp [isMutating, h]

/-- Whichever branch is taken, the CREATE statement is mutating. -/
theorem isMutating_createStmtOf (name topology datacenter : String) (rf : Nat) (dw : Bool) :
    isMutating (createStmtOf name topology datacenter rf dw) = true := by
  rw [createStmtOf]
  by_cases h : topology == "SimpleStrategy" <;>
    simp [h, isMutating_simple, isMutating_network]

/-- The metadata query is not mutating. -/
theorem isMutating_get (name : String) : isMutating (getStmt name) = false := rfl

/-- The drop statement is mutating. -/
theorem isMutating_drop (name : String) : isMutating (dropStmt name) = true := rfl

/-- The rows returned by the metadata query have the looked-up row first. -/
theorem actionRows_select_head (st : ClusterState) (name : String) :
    (actionRows st (Action.select name)).head? = List.lookup name st := by
  cases h : List.lookup name st <;> simp [actionRows, h]

/-- Successful metadata query: get_keyspace returns the looked-up row and
leaves the cluster metadata unchanged, issuing exactly the metadata query. -/
theorem get_keyspace_step (sess : Session) (name : String)
    (h : sess.failsOn sess.tick (getStmt name) = none) :
    get_keyspace sess name =
      (.ok (List.lookup name sess.state),
       { sess with tick := sess.tick + 1 }, [getStmt name]) := by
  simp [get_keyspace, execute, h, actionRows_select_head, applyAction]

/-- Failing metadata query: the error propagates and only the metadata query
was issued. -/
theorem get_keyspace_fail (sess : Session) (name e : String)
    (h : sess.failsOn sess.tick (getStmt name) = some e) :
    get_keyspace sess name =
      (.error e, { sess with tick := sess.tick + 1 }, [getStmt name]) := by
  simp [get_keyspace, execute, h]

/-- Looking up a key at the head of the metadata list. -/
theorem lookup_cons_self (name : String) (r : Row) (st : ClusterState) :
    List.lookup name ((name, r) :: st) = some r := by
  simp [List.lookup]

/-- The installed row is a nonempty dict, hence differs from None and from the
empty dict. -/
theorem mkRow_ne (name : String) (dw : Bool) (o : Option Row)
    (h : pyTruthy o = false) : (some (mkRow name dw) ≠ o) := by
  cases o with
  | none => simp
  | some r =>
    cases r with
    | nil => simp [mkRow]
    | cons a l => simp [pyTruthy] at h

/-- Run of keyspace_delete on a truthy row outside check mode: issues the
metadata query then the drop, removes the keyspace, returns True. -/
theorem delete_ok_present_run (st : ClusterState) (tick : Nat) (name : String)
    (h : pyTruthy (List.lookup name st) = true) :
    keyspace_delete ⟨st, tick, fun _ _ => none⟩ false name =
      (.ok true, ⟨eraseKey name st, tick + 1 + 1, fun _ _ => none⟩,
       [getStmt name, dropStmt name]) := by
  have hg := get_keyspace_step ⟨st, tick, fun _ _ => none⟩ name rfl
  simp [keyspace_delete, hg, h, execute, applyAction]

/-- Run of keyspace_delete on a truthy row in check mode: issues only the
metadata query, returns True. -/
theorem delete_ok_present_check (st : ClusterState) (tick : Nat) (name : String)
    (h : pyTruthy (List.lookup name st) = true) :
    keyspace_delete ⟨st, tick, fun _ _ => none⟩ true name =
      (.ok true, ⟨st, tick + 1, fun _ _ => none⟩, [getStmt name]) := by
  have hg := get_keyspace_step ⟨st, tick, fun _ _ => none⟩ name rfl
  simp [keyspace_delete, hg, h]

/-- Run of keyspace_delete on a falsy lookup: issues only the metadata query,
returns False, in either mode. -/
theorem delete_ok_absent (st : ClusterState) (tick : Nat) (cm : Bool) (name : String)
    (h : pyTruthy (List.lookup name st) = false) :
    keyspace_delete ⟨st, tick, fun _ _ => none⟩ cm name =
      (.ok false, ⟨st, tick + 1, fun _ _ => none⟩, [getStmt name]) := by
  have hg := get_keyspace_step ⟨st, tick, fun _ _ => none⟩ name rfl
  simp [keyspace_delete, hg, h]

/-- Run of keyspace_create on a truthy row in check mode: issues only the
metadata query, returns False. -/
theorem create_ok_present_check (st : ClusterState) (tick : Nat)
    (name topology datacenter : String) (rf : Nat) (dw : Bool)
    (h : pyTruthy (List.lookup name st) = true) :
    keyspace_create ⟨st, tick, fun _ _ => none⟩ true name topology datacenter rf dw =
      (.ok false, ⟨st, tick + 1, fun _ _ => none⟩, [getStmt name]) := by
  have hg := get_keyspace_step ⟨st, tick, fun _ _ => none⟩ name rfl
  simp [keyspace_create, hg, h]

/-- Run of keyspace_create on a truthy row outside check mode: re-queries the
unchanged metadata and returns False, with no DDL issued. -/
theorem create_ok_present_run (st : ClusterState) (tick : Nat)
    (name topology datacenter : String) (rf : Nat) (dw : Bool)
    (h : pyTruthy (List.lookup name st) = true) :
    keyspace_create ⟨st, tick, fun _ _ => none⟩ false name topology datacenter rf dw =
      (.ok false, ⟨st, tick + 1 + 1, fun _ _ => none⟩,
       [getStmt name, getStmt name]) := by
  have hg := get_keyspace_step ⟨st, tick, fun _ _ => none⟩ name rfl
  have hg2 := get_keyspace_step ⟨st, tick + 1, fun _ _ => none⟩ name rfl
  simp [keyspace_create, hg, h, requeryAndCompare, hg2]

/-- Run of keyspace_create on a falsy lookup in check mode: issues only the
metadata query, returns True. -/
theorem create_ok_absent_check (st : ClusterState) (tick : Nat)
    (name topology datacenter : String) (rf : Nat) (dw : Bool)
    (h : pyTruthy (List.lookup name st) = false) :
    keyspace_create ⟨st, tick, fun _ _ => none⟩ true name topology datacenter rf dw =
      (.ok true, ⟨st, tick + 1, fun _ _ => none⟩, [getStmt name]) := by
  have hg := get_keyspace_step ⟨st, tick, fun _ _ => none⟩ name rfl
  simp [keyspace_create, hg, h]

/-- Run of keyspace_create on a falsy lookup outside check mode: issues the
metadata query, the topology-appropriate CREATE and a re-query, installs the
row, and returns True. -/
theorem create_ok_absent_run (st : ClusterState) (tick : Nat)
    (name topology datacenter : String) (rf : Nat) (dw : Bool)
    (h : pyTruthy (List.lookup name st) = false) :
    keyspace_create ⟨st, tick, fun _ _ => none⟩ false name topology datacenter rf dw =
      (.ok true, ⟨(name, mkRow name dw) :: st, tick + 1 + 1 + 1, fun _ _ => none⟩,
       [getStmt name, createStmtOf name topology datacenter rf dw, getStmt name]) := by
  have hg := get_keyspace_step ⟨st, tick, fun _ _ => none⟩ name rfl
  have hg2 := get_keyspace_step ⟨(name, mkRow name dw) :: st, tick + 1 + 1, fun _ _ => none⟩
    name rfl
  simp only [lookup_cons_self] at hg2
  have hne := mkRow_ne name dw (List.lookup name st) h
  simp [keyspace_create, hg, h, execute, applyAction, requeryAndCompare, hg2, hne]

/-
Claim theorems.
-/

/-- C1: for every input combination and every session (any cluster state, any
failure oracle), when the check-mode flag is true neither keyspace_create nor
keyspace_delete executes a mutating CREATE or DROP statement: the trace of
each call is exactly the single metadata SELECT, which is not mutating. -/
theorem check_mode_only_select (st : ClusterState) (tick : Nat)
    (oracle : Nat → Stmt → Option String) (name topology datacenter : String)
    (rf : Nat) (dw : Bool) :
    (keyspace_create ⟨st, tick, oracle⟩ true name topology datacenter rf dw).2.2 =
      [getStmt name] ∧
    (keyspace_delete ⟨st, tick, oracle⟩ true name).2.2 = [getStmt name] ∧
    isMutating (getStmt name) = false := by
  refine ⟨?_, ?_, rfl⟩
  · cases ho : oracle tick (getStmt name) with
    | some e =>
      have hg := get_keyspace_fail ⟨st, tick, oracle⟩ name e ho
      simp [keyspace_create, hg]
    | none =>
      have hg := get_keyspace_step ⟨st, tick, oracle⟩ name ho
      cases hp : pyTruthy (List.lookup name st) <;> simp [keyspace_create, hg, hp]
  · cases ho : oracle tick (getStmt name) with
    | some e =>
      have hg := get_keyspace_fail ⟨st, tick, oracle⟩ name e ho
      simp [keyspace_delete, hg]
    | none =>
      have hg := get_keyspace_step ⟨st, tick, oracle⟩ name ho
      cases hp : pyTruthy (List.lookup name st) <;> simp [keyspace_delete, hg, hp]

/-- C2: over a non-failing session the boolean returned by keyspace_create and
by keyspace_delete, in either mode, is true exactly when the same call run
with check mode false from the same initial state issues a mutating
statement. -/
theorem changed_iff_would_mutate (st : ClusterState) (cm : Bool)
    (name topology datacenter : String) (rf : Nat) (dw : Bool) :
    ((keyspace_create (Session.ok st) cm name topology datacenter rf dw).1 =
        .ok true ↔
      (keyspace_create (Session.ok st) false name topology datacenter rf dw).2.2.any
        isMutating = true) ∧
    ((keyspace_delete (Session.ok st) cm name).1 = .ok true ↔
      (keyspace_delete (Session.ok st) false name).2.2.any isMutating = true) := by
  cases hp : pyTruthy (List.lookup name st) with
  | true =>
    cases cm <;>
      simp [Session.ok, create_ok_present_run st 0 name topology datacenter rf dw hp,
        create_ok_present_check st 0 name topology datacenter rf dw hp,
        delete_ok_present_run st 0 name hp, delete_ok_present_check st 0 name hp,
        isMutating_get, isMutating_drop]
  | false =>
    cases cm <;>
      simp [Session.ok, create_ok_absent_run st 0 name topology datacenter rf dw hp,
        create_ok_absent_check st 0 name topology datacenter rf dw hp,
        delete_ok_absent st 0 true name hp, delete_ok_absent st 0 false name hp,
        isMutating_get, isMutating_createStmtOf]

/-- C3: on a keyspace absent from the metadata, keyspace_create with check
mode false issues the topology-appropriate CREATE followed by a metadata
re-query and returns True; with check mode true it issues nothing beyond the
metadata query and returns True. -/
theorem create_absent_contract (st : ClusterState)
    (name topology datacenter : String) (rf : Nat) (dw : Bool)
    (h : List.lookup name st = none) :
    (keyspace_create (Session.ok st) false name topology datacenter rf dw).1 =
      .ok true ∧
    (keyspace_create (Session.ok st) false name topology datacenter rf dw).2.2 =
      [getStmt name, createStmtOf name topology datacenter rf dw, getStmt name] ∧
    (keyspace_create (Session.ok st) true name topology datacenter rf dw).1 =
      .ok true ∧
    (keyspace_create (Session.ok st) true name topology datacenter rf dw).2.2 =
      [getStmt name] := by
  have hp : pyTruthy (List.lookup name st) = false := by simp [h, pyTruthy]
  simp [Session.ok, create_ok_absent_run st 0 name topology datacenter rf dw hp,
    create_ok_absent_check st 0 name topology datacenter rf dw hp]

/-- Witness for create_absent_contract: keyspace foo absent from the empty
cluster, SimpleStrategy, replication factor 1, durable writes on. -/
theorem create_absent_contract_witness :
    List.lookup "foo" ([] : ClusterState) = none ∧
    ((keyspace_create (Session.ok []) false "foo" "SimpleStrategy" "dc1" 1 true).1 =
        .ok true ∧
      (keyspace_create (Session.ok []) false "foo" "SimpleStrategy" "dc1" 1 true).2.2 =
        [getStmt "foo", createStmtOf "foo" "SimpleStrategy" "dc1" 1 true, getStmt "foo"] ∧
      (keyspace_create (Session.ok []) true "foo" "SimpleStrategy" "dc1" 1 true).1 =
        .ok true ∧
      (keyspace_create (Session.ok []) true "foo" "SimpleStrategy" "dc1" 1 true).2.2 =
        [getStmt "foo"]) :=
  ⟨rfl, create_absent_contract [] "foo" "SimpleStrategy" "dc1" 1 true rfl⟩

/-- C4: on a keyspace already present in the metadata (its row, as always for
real keyspaces, a nonempty dict), keyspace_create issues no mutating statement
and returns False, in check mode and outside it. -/
theorem create_present_noop (st : ClusterState) (cm : Bool)
    (name topology datacenter : String) (rf : Nat) (dw : Bool) (r : Row)
    (h : List.lookup name st = some r) (hr : r ≠ []) :
    (keyspace_create (Session.ok st) cm name topology datacenter rf dw).1 =
      .ok false ∧
    (keyspace_create (Session.ok st) cm name topology datacenter rf dw).2.2 =
      (if cm then [getStmt name] else [getStmt name, getStmt name]) ∧
    (keyspace_create (Session.ok st) cm name topology datacenter rf dw).2.2.any
      isMutating = false := by
  have hp : pyTruthy (List.lookup name st) = true := by
    cases r with
    | nil => exact absurd rfl hr
    | cons a l => simp [h, pyTruthy]
  cases cm <;>
    simp [Session.ok, create_ok_present_run st 0 name topology datacenter rf dw hp,
      create_ok_present_check st 0 name topology datacenter rf dw hp, isMutating_get]

/-- Witness for create_present_noop: keyspace foo present with its usual
metadata row, outside check mode. -/
theorem create_present_noop_witness :
    List.lookup "foo" [("foo", [("keyspace_name", "foo")])] =
      some [("keyspace_name", "foo")] ∧
    ([("keyspace_name", "foo")] : Row) ≠ [] ∧
    ((keyspace_create (Session.ok [("foo", [("keyspace_name", "foo")])]) false
        "foo" "SimpleStrategy" "dc1" 1 true).1 = .ok false ∧
      (keyspace_create (Session.ok [("foo", [("keyspace_name", "foo")])]) false
        "foo" "SimpleStrategy" "dc1" 1 true).2.2 =
        (if false then [getStmt "foo"] else [getStmt "foo", getStmt "foo"]) ∧
      (keyspace_create (Session.ok [("foo", [("keyspace_name", "foo")])]) false
        "foo" "SimpleStrategy" "dc1" 1 true).2.2.any isMutating = false) :=
  ⟨by decide, by decide,
    create_present_noop [("foo", [("keyspace_name", "foo")])] false
      "foo" "SimpleStrategy" "dc1" 1 true [("keyspace_name", "foo")] (by decide)
      (by decide)⟩

/-- C5: on a keyspace absent from the metadata, running keyspace_create
outside check mode and then running it again with identical parameters on the
resulting session returns True from the first call and False from the second,
the second call issuing no mutating statement. -/
theorem create_idempotent (st : ClusterState)
    (name topology datacenter : String) (rf : Nat) (dw : Bool)
    (h : List.lookup name st = none) :
    (keyspace_create (Session.ok st) false name topology datacenter rf dw).1 =
      .ok true ∧
    (keyspace_create
        (keyspace_create (Session.ok st) false name topology datacenter rf dw).2.1
        false name topology datacenter rf dw).1 = .ok false ∧
    (keyspace_create
        (keyspace_create (Session.ok st) false name topology datacenter rf dw).2.1
        false name topology datacenter rf dw).2.2.any isMutating = false := by
  have hp : pyTruthy (List.lookup name st) = false := by simp [h, pyTruthy]
  have h1 := create_ok_absent_run st 0 name topology datacenter rf dw hp
  have hp2 : pyTruthy (List.lookup name ((name, mkRow name dw) :: st)) = true := by
    simp [lookup_cons_self, pyTruthy, mkRow]
  have h2 := create_ok_present_run ((name, mkRow name dw) :: st) 3
    name topology datacenter rf dw hp2
  simp [Session.ok, h1, h2, isMutating_get]

/-- Witness for create_idempotent: keyspace foo absent from the empty
cluster. -/
theorem create_idempotent_witness :
    List.lookup "foo" ([] : ClusterState) = none ∧
    ((keyspace_create (Session.ok []) false "foo" "SimpleStrategy" "dc1" 1 true).1 =
        .ok true ∧
      (keyspace_create
          (keyspace_create (Session.ok []) false "foo" "SimpleStrategy" "dc1" 1 true).2.1
          false "foo" "SimpleStrategy" "dc1" 1 true).1 = .ok false ∧
      (keyspace_create
          (keyspace_create (Session.ok []) false "foo" "SimpleStrategy" "dc1" 1 true).2.1
          false "foo" "SimpleStrategy" "dc1" 1 true).2.2.any isMutating = false) :=
  ⟨rfl, create_idempotent [] "foo" "SimpleStrategy" "dc1" 1 true rfl⟩

/-- C6: keyspace_delete queries the metadata for the name; on an absent
keyspace it returns False without issuing a DROP, on a present keyspace (its
row, as always for real keyspaces, a nonempty dict) it returns True, issuing
the DROP statement exactly when check mode is false. -/
theorem delete_contract (st : ClusterState) (cm : Bool) (name : String)
    (h : realisticRow (List.lookup name st)) :
    (keyspace_delete (Session.ok st) cm name).1 =
      .ok (List.lookup name st).isSome ∧
    (keyspace_delete (Session.ok st) cm name).2.2 =
      (if (List.lookup name st).isSome && !cm then [getStmt name, dropStmt name]
       else [getStmt name]) := by
  cases hl : List.lookup name st with
  | none =>
    have hp : pyTruthy (List.lookup name st) = false := by simp [hl, pyTruthy]
    cases cm <;>
      simp [Session.ok, delete_ok_absent st 0 true name hp,
        delete_ok_absent st 0 false name hp, hl]
  | some r =>
    rw [hl] at h
    have hr : r ≠ [] := h
    have hp : pyTruthy (List.lookup name st) = true := by
      cases r with
      | nil => exact absurd rfl hr
      | cons a l => simp [hl, pyTruthy]
    cases cm with
    | true => simp [Session.ok, delete_ok_present_check st 0 name hp, hl]
    | false => simp [Session.ok, delete_ok_present_run st 0 name hp, hl]

/-- Witness for delete_contract: keyspace foo present with its usual metadata
row, outside check mode. -/
theorem delete_contract_witness :
    realisticRow (List.lookup "foo" [("foo", [("keyspace_name", "foo")])]) ∧
    ((keyspace_delete (Session.ok [("foo", [("keyspace_name", "foo")])]) false
        "foo").1 = .ok (List.lookup "foo"
          [("foo", [("keyspace_name", "foo")])]).isSome ∧
      (keyspace_delete (Session.ok [("foo", [("keyspace_name", "foo")])]) false
        "foo").2.2 =
        (if (List.lookup "foo" [("foo", [("keyspace_name", "foo")])]).isSome &&
            !false then [getStmt "foo", dropStmt "foo"] else [getStmt "foo"])) :=
  ⟨by simp [realisticRow], delete_contract [("foo", [("keyspace_name", "foo")])]
    false "foo" (by simp [realisticRow])⟩

/-- Spec section 6 SimpleStrategy DDL form, written from the spec text, with
name, topology, replication factor and durable writes substituted. -/
def specSimpleCreate (name topology : String) (rf : Nat) (dw : Bool) : String :=
  "CREATE KEYSPACE " ++ name ++ " WITH REPLICATION = \x7b \x27class\x27 : \x27" ++ topology ++
    "\x27, \x27replication_factor\x27 : \x27" ++ toString rf ++
    "\x27 \x7d AND DURABLE_WRITES = " ++ pyBool dw ++ ";"

/-- Spec section 6 NetworkTopologyStrategy DDL form, written from the spec
text, with name, topology, datacenter, replication factor and durable writes
substituted. -/
def specNetworkCreate (name topology datacenter : String) (rf : Nat) (dw : Bool) :
    String :=
  "CREATE KEYSPACE " ++ name ++ " WITH REPLICATION = \x7b \x27class\x27 : \x27" ++ topology ++
    "\x27, \x27" ++ datacenter ++ "\x27 : \x27" ++ toString rf ++
    "\x27 \x7d AND DURABLE_WRITES = " ++ pyBool dw ++ ";"

/-- C7: when keyspace_create issues a CREATE on an absent keyspace, the
statement text handed to the session is exactly the form given in the spec
with the values substituted: the simple form for topology SimpleStrategy and
the network form for NetworkTopologyStrategy, in each case with an empty
bound-parameter list. -/
theorem create_statement_matches_spec (st : ClusterState)
    (name datacenter : String) (rf : Nat) (dw : Bool)
    (h : List.lookup name st = none) :
    (keyspace_create (Session.ok st) false name "SimpleStrategy" datacenter
        rf dw).2.2 =
      [getStmt name, ⟨specSimpleCreate name "SimpleStrategy" rf dw, []⟩,
       getStmt name] ∧
    (keyspace_create (Session.ok st) false name "NetworkTopologyStrategy"
        datacenter rf dw).2.2 =
      [getStmt name,
       ⟨specNetworkCreate name "NetworkTopologyStrategy" datacenter rf dw, []⟩,
       getStmt name] := by
  have hp : pyTruthy (List.lookup name st) = false := by simp [h, pyTruthy]
  have h1 := create_ok_absent_run st 0 name "SimpleStrategy" datacenter rf dw hp
  have h2 := create_ok_absent_run st 0 name "NetworkTopologyStrategy" datacenter
    rf dw hp
  constructor
  · simp [Session.ok, h1, createStmtOf, specSimpleCreate, simpleCreateText]
  · simp [Session.ok, h2, createStmtOf, specNetworkCreate, networkCreateText]

/-- Witness for create_statement_matches_spec: absent keyspace foo on the
empty cluster, datacenter dc1, replication factor 3, durable writes on. -/
theorem create_statement_matches_spec_witness :
    List.lookup "foo" ([] : ClusterState) = none ∧
    ((keyspace_create (Session.ok []) false "foo" "SimpleStrategy" "dc1"
        3 true).2.2 =
      [getStmt "foo", ⟨specSimpleCreate "foo" "SimpleStrategy" 3 true, []⟩,
       getStmt "foo"] ∧
    (keyspace_create (Session.ok []) false "foo" "NetworkTopologyStrategy"
        "dc1" 3 true).2.2 =
      [getStmt "foo",
       ⟨specNetworkCreate "foo" "NetworkTopologyStrategy" "dc1" 3 true, []⟩,
       getStmt "foo"]) :=
  ⟨rfl, create_statement_matches_spec [] "foo" "dc1" 3 true rfl⟩

/-- C8 counterexample: with keyspace foo present, keyspace_delete hands the
session the fixed template text DROP KEYSPACE %s with the name as a separate
bound parameter; the statement text is not the interpolated DROP KEYSPACE foo
that the claim asserts. -/
theorem drop_interpolation_counterexample :
    (keyspace_delete (Session.ok [("foo", [("keyspace_name", "foo")])]) false
        "foo").2.2 =
      [getStmt "foo", ⟨"DROP KEYSPACE %s", ["foo"]⟩] ∧
    (⟨"DROP KEYSPACE %s", ["foo"]⟩ : Stmt).text ≠ "DROP KEYSPACE foo" := by
  exact ⟨by decide, by decide⟩

/-- C8 amended: when keyspace_delete issues a DROP for a keyspace, the
statement handed to the session is the fixed template DROP KEYSPACE %s as
text, with the name supplied separately as the single bound parameter rather
than interpolated into the text. -/
theorem drop_uses_template (st : ClusterState) (cm : Bool) (name : String) :
    (keyspace_delete (Session.ok st) cm name).2.2 =
      (if pyTruthy (List.lookup name st) && !cm then
        [getStmt name, ⟨DROP_KEYSPACE, [name]⟩]
       else [getStmt name]) ∧
    DROP_KEYSPACE = "DROP KEYSPACE %s" := by
  refine ⟨?_, rfl⟩
  cases hp : pyTruthy (List.lookup name st) with
  | true =>
    cases cm with
    | true => simp [Session.ok, delete_ok_present_check st 0 name hp, hp]
    | false => simp [Session.ok, delete_ok_present_run st 0 name hp, hp, dropStmt]
  | false =>
    cases cm <;>
      simp [Session.ok, delete_ok_absent st 0 true name hp,
        delete_ok_absent st 0 false name hp, hp]

/-- Looking up a key in metadata from which it was erased finds nothing. -/
theorem lookup_eraseKey (name : String) (st : ClusterState) :
    List.lookup name (eraseKey name st) = none := by
  induction st with
  | nil => rfl
  | cons p t ih =>
    by_cases hp : p.1 = name
    · have h1 : eraseKey name (p :: t) = eraseKey name t := by
        simp [eraseKey, List.filter_cons, hp]
      rw [h1]
      exact ih
    · have h1 : eraseKey name (p :: t) = p :: eraseKey name t := by
        simp [eraseKey, List.filter_cons, hp]
      have h2 : (name == p.1) = false := by simp [Ne.symm hp]
      rw [h1]
      simp only [List.lookup, h2]
      exact ih

/-- C10: get_keyspace returns the first metadata row when there is one and
None otherwise; existence is decided by truthiness of that value, so a
present keyspace whose metadata row is the falsy empty dict is treated by
keyspace_create and keyspace_delete exactly as an absent one: same return
value and same statements issued as on the cluster with the keyspace
removed. -/
theorem falsy_row_treated_as_absent :
    (∀ (st : ClusterState) (name : String),
      (get_keyspace (Session.ok st) name).1 = .ok (List.lookup name st)) ∧
    (∀ (st : ClusterState) (cm : Bool) (name topology datacenter : String)
      (rf : Nat) (dw : Bool), List.lookup name st = some [] →
      (keyspace_create (Session.ok st) cm name topology datacenter rf dw).1 =
        (keyspace_create (Session.ok (eraseKey name st)) cm name topology
          datacenter rf dw).1 ∧
      (keyspace_create (Session.ok st) cm name topology datacenter rf dw).2.2 =
        (keyspace_create (Session.ok (eraseKey name st)) cm name topology
          datacenter rf dw).2.2 ∧
      (keyspace_delete (Session.ok st) cm name).1 =
        (keyspace_delete (Session.ok (eraseKey name st)) cm name).1 ∧
      (keyspace_delete (Session.ok st) cm name).2.2 =
        (keyspace_delete (Session.ok (eraseKey name st)) cm name).2.2) := by
  constructor
  · intro st name
    have hg := get_keyspace_step (Session.ok st) name rfl
    simp [Session.ok] at hg
    simp [Session.ok, hg]
  · intro st cm name topology datacenter rf dw h
    have hp1 : pyTruthy (List.lookup name st) = false := by simp [h, pyTruthy]
    have hp2 : pyTruthy (List.lookup name (eraseKey name st)) = false := by
      simp [lookup_eraseKey, pyTruthy]
    cases cm with
    | true =>
      simp [Session.ok, create_ok_absent_check st 0 name topology datacenter rf dw hp1,
        create_ok_absent_check (eraseKey name st) 0 name topology datacenter rf dw hp2,
        delete_ok_absent st 0 true name hp1,
        delete_ok_absent (eraseKey name st) 0 true name hp2]
    | false =>
      simp [Session.ok, create_ok_absent_run st 0 name topology datacenter rf dw hp1,
        create_ok_absent_run (eraseKey name st) 0 name topology datacenter rf dw hp2,
        delete_ok_absent st 0 false name hp1,
        delete_ok_absent (eraseKey name st) 0 false name hp2]

/-- Witness for falsy_row_treated_as_absent: keyspace foo present with an
empty metadata row. -/
theorem falsy_row_treated_as_absent_witness :
    (get_keyspace (Session.ok [("foo", ([] : Row))]) "foo").1 =
      .ok (some ([] : Row)) ∧
    ((keyspace_create (Session.ok [("foo", ([] : Row))]) false "foo"
        "SimpleStrategy" "dc1" 1 true).1 =
      (keyspace_create (Session.ok (eraseKey "foo" [("foo", ([] : Row))])) false
        "foo" "SimpleStrategy" "dc1" 1 true).1 ∧
    (keyspace_create (Session.ok [("foo", ([] : Row))]) false "foo"
        "SimpleStrategy" "dc1" 1 true).2.2 =
      (keyspace_create (Session.ok (eraseKey "foo" [("foo", ([] : Row))])) false
        "foo" "SimpleStrategy" "dc1" 1 true).2.2 ∧
    (keyspace_delete (Session.ok [("foo", ([] : Row))]) false "foo").1 =
      (keyspace_delete (Session.ok (eraseKey "foo" [("foo", ([] : Row))])) false
        "foo").1 ∧
    (keyspace_delete (Session.ok [("foo", ([] : Row))]) false "foo").2.2 =
      (keyspace_delete (Session.ok (eraseKey "foo" [("foo", ([] : Row))])) false
        "foo").2.2) :=
  ⟨falsy_row_treated_as_absent.1 [("foo", [])] "foo",
   falsy_row_treated_as_absent.2 [("foo", [])] false "foo" "SimpleStrategy"
     "dc1" 1 true rfl⟩

/-- Error behaviour of keyspace_create over an arbitrary session starting at
tick 0: at most one mutating statement is ever attempted, a failure ends the
run at the failing statement with every earlier statement having succeeded,
and main reports the message verbatim. -/
theorem create_err_spec (st : ClusterState) (oracle : Nat → Stmt → Option String)
    (cm : Bool) (name topology datacenter : String) (rf : Nat) (dw : Bool)
    (e : String) :
    ((keyspace_create ⟨st, 0, oracle⟩ cm name topology datacenter rf dw).2.2.filter
      isMutating).length ≤ 1 ∧
    ((keyspace_create ⟨st, 0, oracle⟩ cm name topology datacenter rf dw).1 =
        .error e →
      (∃ tr0 stmt,
        (keyspace_create ⟨st, 0, oracle⟩ cm name topology datacenter rf dw).2.2 =
          tr0 ++ [stmt] ∧
        oracle tr0.length stmt = some e ∧
        ∀ i (hi : i < tr0.length), oracle i (tr0.get ⟨i, hi⟩) = none) ∧
      mainDispatch ⟨st, 0, oracle⟩ cm "present" name topology datacenter rf dw =
        .failJson e) := by
  cases o0 : oracle 0 (getStmt name) with
  | some e0 =>
    have hg := get_keyspace_fail ⟨st, 0, oracle⟩ name e0 o0
    have hc : keyspace_create ⟨st, 0, oracle⟩ cm name topology datacenter rf dw =
        (.error e0, ⟨st, 1, oracle⟩, [getStmt name]) := by
      simp [keyspace_create, hg]
    refine ⟨by simp [hc, List.filter_cons, isMutating_get], ?_⟩
    intro he
    rw [hc] at he
    simp at he
    subst he
    refine ⟨⟨[], getStmt name, by simp [hc], o0, ?_⟩, by simp [mainDispatch, hc]⟩
    intro i hi
    exact absurd hi (Nat.not_lt_zero i)
  | none =>
    have hg := get_keyspace_step ⟨st, 0, oracle⟩ name o0
    cases hp : pyTruthy (List.lookup name st) with
    | true =>
      cases cm with
      | true =>
        have hc : keyspace_create ⟨st, 0, oracle⟩ true name topology datacenter rf dw =
            (.ok false, ⟨st, 1, oracle⟩, [getStmt name]) := by
          simp [keyspace_create, hg, hp]
        refine ⟨by simp [hc, List.filter_cons, isMutating_get], ?_⟩
        intro he
        rw [hc] at he
        simp at he
      | false =>
        cases o1 : oracle 1 (getStmt name) with
        | some e1 =>
          have hg2 := get_keyspace_fail ⟨st, 1, oracle⟩ name e1 o1
          have hc : keyspace_create ⟨st, 0, oracle⟩ false name topology datacenter rf dw =
              (.error e1, ⟨st, 2, oracle⟩, [getStmt name, getStmt name]) := by
            simp [keyspace_create, hg, hp, requeryAndCompare, hg2]
          refine ⟨by simp [hc, List.filter_cons, isMutating_get], ?_⟩
          intro he
          rw [hc] at he
          simp at he
          subst he
          refine ⟨⟨[getStmt name], getStmt name, by simp [hc], o1, ?_⟩,
            by simp [mainDispatch, hc]⟩
          intro i hi
          simp only [List.length_cons, List.length_nil] at hi
          interval_cases i
          exact o0
        | none =>
          have hg2 := get_keyspace_step ⟨st, 1, oracle⟩ name o1
          have hc : keyspace_create ⟨st, 0, oracle⟩ false name topology datacenter rf dw =
              (.ok false, ⟨st, 2, oracle⟩, [getStmt name, getStmt name]) := by
            simp [keyspace_create, hg, hp, requeryAndCompare, hg2]
          refine ⟨by simp [hc, List.filter_cons, isMutating_get], ?_⟩
          intro he
          rw [hc] at he
          simp at he
    | false =>
      cases cm with
      | true =>
        have hc : keyspace_create ⟨st, 0, oracle⟩ true name topology datacenter rf dw =
            (.ok true, ⟨st, 1, oracle⟩, [getStmt name]) := by
          simp [keyspace_create, hg, hp]
        refine ⟨by simp [hc, List.filter_cons, isMutating_get], ?_⟩
        intro he
        rw [hc] at he
        simp at he
      | false =>
        cases o1 : oracle 1 (createStmtOf name topology datacenter rf dw) with
        | some e1 =>
          have hc : keyspace_create ⟨st, 0, oracle⟩ false name topology datacenter rf dw =
              (.error e1, ⟨st, 2, oracle⟩,
               [getStmt name, createStmtOf name topology datacenter rf dw]) := by
            simp [keyspace_create, hg, hp, execute, o1]
          refine ⟨by simp [hc, List.filter_cons, isMutating_get,
            isMutating_createStmtOf], ?_⟩
          intro he
          rw [hc] at he
          simp at he
          subst he
          refine ⟨⟨[getStmt name], createStmtOf name topology datacenter rf dw,
            by simp [hc], o1, ?_⟩, by simp [mainDispatch, hc]⟩
          intro i hi
          simp only [List.length_cons, List.length_nil] at hi
          interval_cases i
          exact o0
        | none =>
          cases o2 : oracle 2 (getStmt name) with
          | some e2 =>
            have hg2 := get_keyspace_fail ⟨(name, mkRow name dw) :: st, 2, oracle⟩
              name e2 o2
            have hc : keyspace_create ⟨st, 0, oracle⟩ false name topology datacenter
                rf dw =
                (.error e2, ⟨(name, mkRow name dw) :: st, 3, oracle⟩,
                 [getStmt name, createStmtOf name topology datacenter rf dw,
                  getStmt name]) := by
              simp [keyspace_create, hg, hp, execute, o1, applyAction,
                requeryAndCompare, hg2]
            refine ⟨by simp [hc, List.filter_cons, isMutating_get,
              isMutating_createStmtOf], ?_⟩
            intro he
            rw [hc] at he
            simp at he
            subst he
            refine ⟨⟨[getStmt name, createStmtOf name topology datacenter rf dw],
              getStmt name, by simp [hc], o2, ?_⟩, by simp [mainDispatch, hc]⟩
            intro i hi
            simp only [List.length_cons, List.length_nil] at hi
            interval_cases i
            · exact o0
            · exact o1
          | none =>
            have hg2 := get_keyspace_step ⟨(name, mkRow name dw) :: st, 2, oracle⟩
              name o2
            simp only [lookup_cons_self] at hg2
            have hne := mkRow_ne name dw (List.lookup name st) hp
            have hc : keyspace_create ⟨st, 0, oracle⟩ false name topology datacenter
                rf dw =
                (.ok true, ⟨(name, mkRow name dw) :: st, 3, oracle⟩,
                 [getStmt name, createStmtOf name topology datacenter rf dw,
                  getStmt name]) := by
              simp [keyspace_create, hg, hp, execute, o1, applyAction,
                requeryAndCompare, hg2, hne]
            refine ⟨by simp [hc, List.filter_cons, isMutating_get,
              isMutating_createStmtOf], ?_⟩
            intro he
            rw [hc] at he
            simp at he

/-- Error behaviour of keyspace_delete over an arbitrary session starting at
tick 0: at most one mutating statement is ever attempted, a failure ends the
run at the failing statement with every earlier statement having succeeded,
and main reports the message verbatim. -/
theorem delete_err_spec (st : ClusterState) (oracle : Nat → Stmt → Option String)
    (cm : Bool) (name : String) (e : String) :
    ((keyspace_delete ⟨st, 0, oracle⟩ cm name).2.2.filter isMutating).length ≤ 1 ∧
    ((keyspace_delete ⟨st, 0, oracle⟩ cm name).1 = .error e →
      (∃ tr0 stmt,
        (keyspace_delete ⟨st, 0, oracle⟩ cm name).2.2 = tr0 ++ [stmt] ∧
        oracle tr0.length stmt = some e ∧
        ∀ i (hi : i < tr0.length), oracle i (tr0.get ⟨i, hi⟩) = none) ∧
      mainDispatch ⟨st, 0, oracle⟩ cm "absent" name name name 1 true =
        .failJson e) := by
  cases o0 : oracle 0 (getStmt name) with
  | some e0 =>
    have hg := get_keyspace_fail ⟨st, 0, oracle⟩ name e0 o0
    have hc : keyspace_delete ⟨st, 0, oracle⟩ cm name =
        (.error e0, ⟨st, 1, oracle⟩, [getStmt name]) := by
      simp [keyspace_delete, hg]
    refine ⟨by simp [hc, List.filter_cons, isMutating_get], ?_⟩
    intro he
    rw [hc] at he
    simp at he
    subst he
    refine ⟨⟨[], getStmt name, by simp [hc], o0, ?_⟩, by simp [mainDispatch, hc]⟩
    intro i hi
    exact absurd hi (Nat.not_lt_zero i)
  | none =>
    have hg := get_keyspace_step ⟨st, 0, oracle⟩ name o0
    cases hp : pyTruthy (List.lookup name st) with
    | true =>
      cases cm with
      | true =>
        have hc : keyspace_delete ⟨st, 0, oracle⟩ true name =
            (.ok true, ⟨st, 1, oracle⟩, [getStmt name]) := by
          simp [keyspace_delete, hg, hp]
        refine ⟨by simp [hc, List.filter_cons, isMutating_get], ?_⟩
        intro he
        rw [hc] at he
        simp at he
      | false =>
        cases o1 : oracle 1 (dropStmt name) with
        | some e1 =>
          have hc : keyspace_delete ⟨st, 0, oracle⟩ false name =
              (.error e1, ⟨st, 2, oracle⟩, [getStmt name, dropStmt name]) := by
            simp [keyspace_delete, hg, hp, execute, o1]
          refine ⟨by simp [hc, List.filter_cons, isMutating_get,
            isMutating_drop], ?_⟩
          intro he
          rw [hc] at he
          simp at he
          subst he
          refine ⟨⟨[getStmt name], dropStmt name, by simp [hc], o1, ?_⟩,
            by simp [mainDispatch, hc]⟩
          intro i hi
          simp only [List.length_cons, List.length_nil] at hi
          interval_cases i
          exact o0
        | none =>
          have hc : keyspace_delete ⟨st, 0, oracle⟩ false name =
              (.ok true, ⟨eraseKey name st, 2, oracle⟩,
               [getStmt name, dropStmt name]) := by
            simp [keyspace_delete, hg, hp, execute, o1, applyAction]
          refine ⟨by simp [hc, List.filter_cons, isMutating_get,
            isMutating_drop], ?_⟩
          intro he
          rw [hc] at he
          simp at he
    | false =>
      have hc : keyspace_delete ⟨st, 0, oracle⟩ cm name =
          (.ok false, ⟨st, 1, oracle⟩, [getStmt name]) := by
        simp [keyspace_delete, hg, hp]
      refine ⟨by simp [hc, List.filter_cons, isMutating_get], ?_⟩
      intro he
      rw [hc] at he
      simp at he

/-- C9: errors are terminal and reported verbatim.  Over any session, each of
keyspace_create and keyspace_delete attempts at most one mutating statement;
when a call fails with message e, the failing statement is the last one
attempted, every earlier statement succeeded (so no statement is retried),
and the caller reports e verbatim as its failure result. -/
theorem errors_terminal_and_verbatim (st : ClusterState)
    (oracle : Nat → Stmt → Option String) (cm : Bool)
    (name topology datacenter : String) (rf : Nat) (dw : Bool) (e : String) :
    ((keyspace_create ⟨st, 0, oracle⟩ cm name topology datacenter rf dw).2.2.filter
      isMutating).length ≤ 1 ∧
    ((keyspace_delete ⟨st, 0, oracle⟩ cm name).2.2.filter isMutating).length ≤ 1 ∧
    ((keyspace_create ⟨st, 0, oracle⟩ cm name topology datacenter rf dw).1 =
        .error e →
      (∃ tr0 stmt,
        (keyspace_create ⟨st, 0, oracle⟩ cm name topology datacenter rf dw).2.2 =
          tr0 ++ [stmt] ∧
        oracle tr0.length stmt = some e ∧
        ∀ i (hi : i < tr0.length), oracle i (tr0.get ⟨i, hi⟩) = none) ∧
      mainDispatch ⟨st, 0, oracle⟩ cm "present" name topology datacenter rf dw =
        .failJson e) ∧
    ((keyspace_delete ⟨st, 0, oracle⟩ cm name).1 = .error e →
      (∃ tr0 stmt,
        (keyspace_delete ⟨st, 0, oracle⟩ cm name).2.2 = tr0 ++ [stmt] ∧
        oracle tr0.length stmt = some e ∧
        ∀ i (hi : i < tr0.length), oracle i (tr0.get ⟨i, hi⟩) = none) ∧
      mainDispatch ⟨st, 0, oracle⟩ cm "absent" name name name 1 true =
        .failJson e) := by
  obtain ⟨hc1, hc2⟩ := create_err_spec st oracle cm name topology datacenter rf dw e
  obtain ⟨hd1, hd2⟩ := delete_err_spec st oracle cm name e
  exact ⟨hc1, hd1, hc2, hd2⟩

/-- Witness for errors_terminal_and_verbatim: a session whose first execute
call raises with message boom. -/
theorem errors_terminal_and_verbatim_witness :
    ((keyspace_create ⟨[], 0, fun _ _ => some "boom"⟩ false "foo"
        "SimpleStrategy" "dc1" 1 true).2.2.filter isMutating).length ≤ 1 ∧
    ((keyspace_delete ⟨[], 0, fun _ _ => some "boom"⟩ false "foo").2.2.filter
      isMutating).length ≤ 1 ∧
    ((∃ tr0 stmt,
        (keyspace_create ⟨[], 0, fun _ _ => some "boom"⟩ false "foo"
          "SimpleStrategy" "dc1" 1 true).2.2 = tr0 ++ [stmt] ∧
        (fun (_ : Nat) (_ : Stmt) => some "boom") tr0.length stmt = some "boom" ∧
        ∀ i (hi : i < tr0.length),
          (fun (_ : Nat) (_ : Stmt) => some "boom") i (tr0.get ⟨i, hi⟩) = none) ∧
      mainDispatch ⟨[], 0, fun _ _ => some "boom"⟩ false "present" "foo"
        "SimpleStrategy" "dc1" 1 true = .failJson "boom") ∧
    ((∃ tr0 stmt,
        (keyspace_delete ⟨[], 0, fun _ _ => some "boom"⟩ false "foo").2.2 =
          tr0 ++ [stmt] ∧
        (fun (_ : Nat) (_ : Stmt) => some "boom") tr0.length stmt = some "boom" ∧
        ∀ i (hi : i < tr0.length),
          (fun (_ : Nat) (_ : Stmt) => some "boom") i (tr0.get ⟨i, hi⟩) = none) ∧
      mainDispatch ⟨[], 0, fun _ _ => some "boom"⟩ false "absent" "foo" "foo"
        "foo" 1 true = .failJson "boom") := by
  have h := errors_terminal_and_verbatim [] (fun _ _ => some "boom") false "foo"
    "SimpleStrategy" "dc1" 1 true "boom"
  exact ⟨h.1, h.2.1, h.2.2.1 rfl, h.2.2.2 rfl⟩

end Cassandra
